import Mathlib

/-!
Verification development for the corrective-feedback generation loop of
`rs-coder/agent_loop.py`. Strings are modelled as `List Char`; the Python
functions are translated into executable structurally-recursive Lean
definitions, and the regex-based helpers are given operational models that
follow the backtracking semantics of the concrete patterns used in the
source (documented at each definition).
-/

set_option maxRecDepth 4000

-- ===========================================================================
-- Basic string helpers (Python `str` semantics on the ASCII fragment)
-- ===========================================================================

/-- Python `str` whitespace, which is also the ASCII fragment of the regex
class for whitespace used by the patterns in `agent_loop.py`. -/
def pyIsSpace (c : Char) : Bool :=
  c == ' ' || c == '\t' || c == '\n' || c == '\r' || c == '\x0B' || c == '\x0C'

/-- Python `str.strip()`: remove leading and trailing whitespace. -/
def strip (l : List Char) : List Char :=
  ((l.dropWhile pyIsSpace).reverse.dropWhile pyIsSpace).reverse

/-- Python `str.split('\n')`; always returns a non-empty list of lines. -/
def splitNl : List Char → List (List Char)
  | [] => [[]]
  | c :: rest =>
    if c == '\n' then [] :: splitNl rest
    else
      match splitNl rest with
      | [] => [[c]]
      | l :: ls => (c :: l) :: ls

/-- Python `needle in hay` on strings: substring containment. -/
def containsSub (needle hay : List Char) : Bool := decide (needle <:+: hay)

/-- Python `any(pattern in hay for pattern in pats)`. -/
def anyContains (hay : List Char) (pats : List (List Char)) : Bool :=
  pats.any (fun p => containsSub p hay)

/-- Python `str.lower()` on the ASCII fragment. -/
def toLowerL (l : List Char) : List Char := l.map Char.toLower

/-- Decimal value of a digit string (regex group matched by a digits class). -/
def natOfDigits (l : List Char) : Nat :=
  l.foldl (fun n c => n * 10 + (c.toNat - 48)) 0

/-- Index of the first occurrence of `needle` (Python `str.find`), if any. -/
def findSub (needle : List Char) : List Char → Option Nat
  | [] => if needle.isEmpty then some 0 else none
  | c :: rest =>
    if needle.isPrefixOf (c :: rest) then some 0
    else (findSub needle rest).map (· + 1)

/-- Everything after the first occurrence of `needle`
(Python `hay.split(needle, 1)[1]`; only used when `needle` occurs). -/
def afterFirstSub (needle : List Char) : List Char → List Char
  | [] => []
  | c :: rest =>
    if needle.isPrefixOf (c :: rest) then (c :: rest).drop needle.length
    else afterFirstSub needle rest

/-- First value of `f` over a list, scanning left to right. -/
def firstSome {α β : Type} : List α → (α → Option β) → Option β
  | [], _ => none
  | a :: rest, f =>
    match f a with
    | some b => some b
    | none => firstSome rest f

-- ===========================================================================
-- Candidate extraction: `extract_code_from_response` (agent_loop.py 143-190)
-- ===========================================================================

def btick : Char := Char.ofNat 96

/-- The literal three-backtick fence delimiter. -/
def fence3 : List Char := [btick, btick, btick]

/-- The literal opening tag of the language-tagged fence pattern. -/
def fenceTagReflex : List Char := fence3 ++ ("reflexscript").data

/-- Index of the last newline in a list, if any. -/
def lastNlIdx : List Char → Option Nat
  | [] => none
  | c :: rest =>
    match lastNlIdx rest with
    | some i => some (i + 1)
    | none => if c == '\n' then some 0 else none

/-- Content strictly before the first occurrence of `needle`; `none` when
`needle` does not occur.  This is the text captured by a lazy dot-star group
followed by the literal `needle`. -/
def beforeFirstSub (needle : List Char) : List Char → Option (List Char)
  | [] => if needle.isEmpty then some [] else none
  | c :: rest =>
    if needle.isPrefixOf (c :: rest) then some []
    else (beforeFirstSub needle rest).map (fun t => c :: t)

/-- Operational model of matching, immediately after a fence tag, the
remainder of the fence regexes in the source: greedy whitespace followed by a
newline, then a lazy dot-star capture up to the literal closing fence.  With
backtracking, the greedy whitespace part ends at the LAST newline of the
maximal whitespace run after the tag, and the lazy capture ends at the FIRST
subsequent closing fence; any closing fence lies past the whitespace run, so
the match succeeds exactly when the run contains a newline and a closing
fence occurs later. -/
def fenceBody (t : List Char) : Option (List Char) :=
  match lastNlIdx (t.takeWhile pyIsSpace) with
  | none => none
  | some i => beforeFirstSub fence3 (t.drop (i + 1))

/-- Leftmost-match regex search for `tag` + whitespace + newline + lazy body +
closing fence: try each start position from the left; on failure resume the
scan at the next position. -/
def fenceSearchFrom (tag : List Char) : List Char → Option (List Char)
  | [] => none
  | c :: rest =>
    if tag.isPrefixOf (c :: rest) then
      match fenceBody ((c :: rest).drop tag.length) with
      | some body => some body
      | none => fenceSearchFrom tag rest
    else fenceSearchFrom tag rest

/-- Strategy 1 of `extract_code_from_response`: the tagged-fence regex search. -/
def taggedFenceSearch (response : List Char) : Option (List Char) :=
  fenceSearchFrom fenceTagReflex response

/-- Strategy 2 of `extract_code_from_response`: the generic-fence regex search. -/
def genericFenceSearch (response : List Char) : Option (List Char) :=
  fenceSearchFrom fence3 response

/-- The target-language keyword `"reflex "` used by strategies 2 and 3. -/
def kwReflex : List Char := ("reflex ").data

/-- The brace-depth scan of strategy 3 (agent_loop.py 172-185): walk the
characters keeping a signed count; a closing brace that returns the count to
zero after at least one opening brace ends the span at the next index. -/
def braceScanFrom : List Char → Int → Bool → Nat → Option Nat
  | [], _, _, _ => none
  | c :: rest, count, inCode, i =>
    if c == '\x7B' then braceScanFrom rest (count + 1) true (i + 1)
    else if c == '\x7D' then
      if inCode && (count - 1 == 0) then some (i + 1)
      else braceScanFrom rest (count - 1) inCode (i + 1)
    else braceScanFrom rest count inCode (i + 1)

/-- Strategy 3 of `extract_code_from_response` (agent_loop.py 169-188): find
the first `"reflex "`, brace-match from there, and return the stripped span. -/
def extract_keyword_span (response : List Char) : Option (List Char) :=
  match findSub kwReflex response with
  | none => none
  | some start =>
    match braceScanFrom (response.drop start) 0 false start with
    | none => none
    | some e =>
      if start < e then some (strip ((response.drop start).take (e - start)))
      else none

/-- `extract_code_from_response` (agent_loop.py 143-190): the three-strategy
priority chain.  An empty reply yields no candidate; a tagged fence wins
outright; a generic fence is accepted only when its stripped body contains
the `"reflex "` keyword, otherwise control falls through to the keyword
scan. -/
def extract_code_from_response (response : List Char) : Option (List Char) :=
  if response.isEmpty then none
  else
    match taggedFenceSearch response with
    | some inner => some (strip inner)
    | none =>
      match genericFenceSearch response with
      | some inner =>
        let code := strip inner
        if containsSub kwReflex code then some code
        else extract_keyword_span response
      | none => extract_keyword_span response


-- ===========================================================================
-- Diagnostic parsing: `parse_errors` (agent_loop.py 236-271)
-- ===========================================================================

/-- One structured error record built by `parse_errors`. -/
structure Diag where
  file : List Char
  line : Nat
  column : Nat
  type : List Char
  message : List Char
  suggestion : Option (List Char)
deriving DecidableEq

/-- Word characters of the regex class used in the error-line pattern
(ASCII fragment): letters, digits and underscore. -/
def isWordChar (c : Char) : Bool := c.isAlphanum || c == '_'

/-- The checkpoints of the greedy word-group part of the error-line regex:
a first word followed by greedily matched (whitespace, word) groups.  The
result lists, in ascending group count, every pair of (matched type text,
remaining input); the regex engine commits to the longest one from which the
rest of the pattern still matches.  Each step consumes a non-empty word (and
later a non-empty whitespace run), so a fuel of the input length suffices. -/
def wordGroupsCk (fuel : Nat) (acc : List Char) (t : List Char) :
    List (List Char × List Char) :=
  match fuel with
  | 0 => []
  | fuel + 1 =>
    let w := t.takeWhile isWordChar
    if w.isEmpty then []
    else
      let acc' := acc ++ w
      let rest := t.drop w.length
      let ws := rest.takeWhile pyIsSpace
      if ws.isEmpty then [(acc', rest)]
      else (acc', rest) :: wordGroupsCk fuel (acc' ++ ws) (rest.drop ws.length)

/-- Message capture after the final colon: greedy whitespace then a greedy
non-empty dot-plus.  When the remainder is all whitespace and non-empty, the
whitespace group backtracks by one character and the capture is that last
character. -/
def msgMatchRe (t : List Char) : Option (List Char) :=
  let rest := t.dropWhile pyIsSpace
  if rest.isEmpty then
    match t.getLast? with
    | some c => some [c]
    | none => none
  else some rest

/-- Attempt the error-line pattern after a fixed file group: colon, digits,
colon, digits, colon, whitespace, word groups, colon, whitespace, message. -/
def tryAfterFile (file rest0 : List Char) : Option Diag :=
  match rest0 with
  | c1 :: t1 =>
    if c1 == ':' then
      let d1 := t1.takeWhile Char.isDigit
      if d1.isEmpty then none
      else
        match t1.drop d1.length with
        | c2 :: t2 =>
          if c2 == ':' then
            let d2 := t2.takeWhile Char.isDigit
            if d2.isEmpty then none
            else
              match t2.drop d2.length with
              | c3 :: t3 =>
                if c3 == ':' then
                  let t4 := t3.dropWhile pyIsSpace
                  firstSome ((wordGroupsCk (t4.length + 1) [] t4).reverse)
                    (fun ck =>
                      match ck.2 with
                      | c4 :: t5 =>
                        if c4 == ':' then
                          (msgMatchRe t5).map (fun msg =>
                            ⟨file, natOfDigits d1, natOfDigits d2, ck.1, msg, none⟩)
                        else none
                      | [] => none)
                else none
              | [] => none
          else none
        | [] => none
    else none
  | [] => none

/-- All splits of a line into a non-empty prefix and the remaining suffix, in
ascending prefix length. -/
def splitsAsc (pre : List Char) : List Char → List (List Char × List Char)
  | [] => []
  | c :: rest => (pre ++ [c], rest) :: splitsAsc (pre ++ [c]) rest

/-- Operational model of the anchored error-line regex of `parse_errors`
(agent_loop.py 247): a greedy dot-plus file group, so the longest file prefix
from which the deterministic remainder of the pattern matches wins. -/
def errorLineMatch (l : List Char) : Option Diag :=
  firstSome ((splitsAsc [] l).reverse) (fun pr => tryAfterFile pr.1 pr.2)

/-- The literal `"Suggestion:"` marker. -/
def sugKw : List Char := ("Suggestion:").data

/-- The line loop of `parse_errors` (agent_loop.py 249-269), carrying the
current record: a matching line flushes the previous record and starts a new
one; a `Suggestion:` line attaches to the current record; a non-blank line
that does not start with a space is appended to the current message; any
other line is skipped. -/
def parseLines : List (List Char) → Option Diag → List Diag
  | [], cur =>
    match cur with
    | some d => [d]
    | none => []
  | l :: ls, cur =>
    match errorLineMatch l with
    | some d' =>
      match cur with
      | some d => d :: parseLines ls (some d')
      | none => parseLines ls (some d')
    | none =>
      match cur with
      | some d =>
        if sugKw.isPrefixOf (strip l) then
          parseLines ls (some { d with suggestion := some (strip (afterFirstSub sugKw l)) })
        else if !(strip l).isEmpty && l.head? != some ' ' then
          parseLines ls (some { d with message := d.message ++ ' ' :: strip l })
        else parseLines ls (some d)
      | none => parseLines ls none

/-- `parse_errors` (agent_loop.py 236-271). -/
def parse_errors (compiler_output : List Char) : List Diag :=
  parseLines (splitNl (strip compiler_output)) none


-- ===========================================================================
-- Diagnostic classification: `parse_and_categorize_errors` (agent_loop.py 274-334)
-- ===========================================================================

def informationalPatterns : List (List Char) :=
  [ ("safety analysis results").data, ("safety properties: verified").data,
    ("estimated wcet").data, ("estimated stack").data, ("estimated state").data,
    ("max loop depth").data, ("max stack depth").data, ("execution rate").data,
    ("platform:").data, ("toolchain:").data, ("compilation complete").data,
    ("build successful").data, ("phase:").data, ("checking:").data,
    ("processing:").data ]

def syntaxPatterns : List (List Char) :=
  [ ("error:").data, ("syntax error").data, ("parse error").data,
    ("expected").data, ("missing").data, ("unexpected token").data,
    ("invalid syntax").data, ("malformed").data ]

def typePatterns : List (List Char) :=
  [ ("type error").data, ("undefined").data, ("undeclared").data,
    ("incompatible types").data, ("type mismatch").data,
    ("cannot convert").data, ("semantic error").data, ("analysis error").data ]

def linkerPatterns : List (List Char) :=
  [ ("undefined reference").data, ("ld:").data, ("cannot find -l").data,
    ("unresolved symbol").data, ("linker error").data, ("link error").data ]

def warningPatterns : List (List Char) :=
  [ ("warning:").data, ("deprecated").data, ("unused").data ]

def otherFailurePatterns : List (List Char) :=
  [ ("failed").data, ("error").data, ("exception").data, ("abort").data,
    ("fatal").data ]

def cannotOpenFile : List Char := ("cannot open file").data

/-- The five buckets of `parse_and_categorize_errors`. -/
inductive ErrCat
  | syn
  | typ
  | link
  | warn
  | other
deriving DecidableEq

/-- The first-match-wins category chain of `parse_and_categorize_errors`
applied to one non-blank line (agent_loop.py 290-332).  Informational lines
and both arms of the final failure test land in the `other` bucket, exactly
as in the source. -/
def classifyLine (l : List Char) : ErrCat :=
  if anyContains (toLowerL l) informationalPatterns then .other
  else if anyContains (toLowerL l) syntaxPatterns then .syn
  else if anyContains (toLowerL l) typePatterns then .typ
  else if anyContains (toLowerL l) linkerPatterns then .link
  else if anyContains (toLowerL l) warningPatterns then .warn
  else if anyContains (toLowerL l) otherFailurePatterns &&
      !(containsSub cannotOpenFile (toLowerL l)) then .other
  else .other

/-- Line loop of `parse_and_categorize_errors`: blank lines are skipped, and
each remaining line is appended, in input order, to the single bucket chosen
by the chain above (written here with the source's if/elif structure). -/
def paceGo : List (List Char) →
    List (List Char) × List (List Char) × List (List Char) × List (List Char) ×
      List (List Char)
  | [] => ([], [], [], [], [])
  | l :: ls =>
    if (strip l).isEmpty then paceGo ls
    else if anyContains (toLowerL l) informationalPatterns then
      ((paceGo ls).1, (paceGo ls).2.1, (paceGo ls).2.2.1, (paceGo ls).2.2.2.1,
        l :: (paceGo ls).2.2.2.2)
    else if anyContains (toLowerL l) syntaxPatterns then
      (l :: (paceGo ls).1, (paceGo ls).2.1, (paceGo ls).2.2.1, (paceGo ls).2.2.2.1,
        (paceGo ls).2.2.2.2)
    else if anyContains (toLowerL l) typePatterns then
      ((paceGo ls).1, l :: (paceGo ls).2.1, (paceGo ls).2.2.1, (paceGo ls).2.2.2.1,
        (paceGo ls).2.2.2.2)
    else if anyContains (toLowerL l) linkerPatterns then
      ((paceGo ls).1, (paceGo ls).2.1, l :: (paceGo ls).2.2.1, (paceGo ls).2.2.2.1,
        (paceGo ls).2.2.2.2)
    else if anyContains (toLowerL l) warningPatterns then
      ((paceGo ls).1, (paceGo ls).2.1, (paceGo ls).2.2.1, l :: (paceGo ls).2.2.2.1,
        (paceGo ls).2.2.2.2)
    else if anyContains (toLowerL l) otherFailurePatterns &&
        !(containsSub cannotOpenFile (toLowerL l)) then
      ((paceGo ls).1, (paceGo ls).2.1, (paceGo ls).2.2.1, (paceGo ls).2.2.2.1,
        l :: (paceGo ls).2.2.2.2)
    else
      ((paceGo ls).1, (paceGo ls).2.1, (paceGo ls).2.2.1, (paceGo ls).2.2.2.1,
        l :: (paceGo ls).2.2.2.2)

/-- `parse_and_categorize_errors` (agent_loop.py 274-334): returns
`(syntax_errors, type_errors, linker_errors, warnings, other_messages)`. -/
def parse_and_categorize_errors (raw : List Char) :
    List (List Char) × List (List Char) × List (List Char) × List (List Char) ×
      List (List Char) :=
  paceGo (splitNl raw)

/-- The non-blank lines of the raw output, in input order. -/
def nonBlankLines (raw : List Char) : List (List Char) :=
  (splitNl raw).filter (fun l => !(strip l).isEmpty)

/-- A line carrying one of the informational/success markers. -/
def isInformational (l : List Char) : Bool :=
  anyContains (toLowerL l) informationalPatterns

/-- The category-grouped sections of the Rich-mode error report built by
`format_error_feedback_for_history` (agent_loop.py 389-415): the syntax,
type, linker and warning buckets, each truncated to its first 10 entries.
The `other_messages` bucket is never itemized there. -/
def richReportSections (raw : List Char) : List (List (List Char)) :=
  match parse_and_categorize_errors raw with
  | (s, t, l, w, _) => [s.take 10, t.take 10, l.take 10, w.take 10]

-- ===========================================================================
-- Single-shot feedback deduplication: `format_error_feedback` (468-491)
-- ===========================================================================

/-- The dedup loop of `format_error_feedback` (agent_loop.py 470-476): keep
the first record seen for each distinct line number. -/
def dedupGo (seen : List Nat) : List Diag → List Diag
  | [] => []
  | e :: rest =>
    if seen.contains e.line then dedupGo seen rest
    else e :: dedupGo (e.line :: seen) rest

/-- `unique_errors` of `format_error_feedback`. -/
def format_error_feedback_unique_errors (errors : List Diag) : List Diag :=
  dedupGo [] errors

/-- `limited_errors` of `format_error_feedback` (agent_loop.py 479). -/
def format_error_feedback_limited_errors (errors : List Diag) : List Diag :=
  (format_error_feedback_unique_errors errors).take 10

/-- The remainder note of `format_error_feedback` (agent_loop.py 490-491):
present exactly when more than 10 unique-line records exist, carrying the
count of the dropped ones. -/
def format_error_feedback_remainder (errors : List Diag) : Option Nat :=
  if 10 < (format_error_feedback_unique_errors errors).length then
    some ((format_error_feedback_unique_errors errors).length - 10)
  else none

-- ===========================================================================
-- Verifier invocation: `run_reflexc` (agent_loop.py 204-229)
-- ===========================================================================

/-- Outcome of the underlying process launch attempted by `run_reflexc`,
covering the completed call and each exception handler in the source. -/
inductive ProcResult
  | completed (returncode : Int) (stdout stderr : List Char)
  | timedOut
  | fileNotFound
  | otherExc (msg : List Char)

/-- `run_reflexc` (agent_loop.py 204-229): success iff the process completed
with return code 0; a timeout, a missing binary (`FileNotFoundError`) or any
other launch error each produce `(False, <synthetic message>)`. -/
def run_reflexc (rfx_path reflexc_path : List Char) (res : ProcResult) :
    Bool × List Char :=
  match res with
  | .completed rc out err => (rc == 0, strip (out ++ err))
  | .timedOut => (false, ("Error: reflexc timed out").data)
  | .fileNotFound => (false, ("Error: reflexc not found at ").data ++ reflexc_path)
  | .otherExc m => (false, ("Error running reflexc: ").data ++ m)

-- ===========================================================================
-- Loop controller: `agent_loop` (agent_loop.py 639-807)
-- ===========================================================================

/-- Terminal outcomes of one session. -/
inductive Outcome
  | success
  | exhaustedIterations
  | fatalError
deriving DecidableEq

/-- Observable result of one session of the loop controller: the terminal
outcome, the number of oracle calls performed, the verifier submissions as
(iteration, candidate) pairs in submission order, and the final current
candidate. -/
structure RunResult where
  outcome : Outcome
  oracleCalls : Nat
  verifierSubmissions : List (Nat × List Char)
  finalCode : Option (List Char)
deriving DecidableEq

/-- Python falsiness of the optional candidate (`None` or the empty string). -/
def falsyOpt : Option (List Char) → Bool
  | none => true
  | some l => l.isEmpty

/-- The `for iteration in range(1, max_iterations + 1)` loop of `agent_loop`
(agent_loop.py 691-807), one recursive step per iteration.  The oracle is a
function from the call index to the (optional) accumulated reply; replies of
any actual run form such a function, so quantifying over it covers every
session.  An empty or missing reply skips to the next iteration; a falsy
extraction falls back to the current candidate and skips the iteration only
when no candidate exists; otherwise the candidate is written and submitted
to the verifier, ending the session on success and looping on failure. -/
def agentLoopIter (oracle : Nat → Option (List Char))
    (verify : List Char → Bool × List Char) :
    Nat → Nat → Option (List Char) → Nat → List (Nat × List Char) → RunResult
  | _, 0, currentCode, calls, subs =>
    ⟨.exhaustedIterations, calls, subs.reverse, currentCode⟩
  | iteration, r + 1, currentCode, calls, subs =>
    match oracle calls with
    | none => agentLoopIter oracle verify (iteration + 1) r currentCode (calls + 1) subs
    | some resp =>
      if resp.isEmpty then
        agentLoopIter oracle verify (iteration + 1) r currentCode (calls + 1) subs
      else
        let extracted := extract_code_from_response resp
        match (if falsyOpt extracted then currentCode else extracted) with
        | none =>
          agentLoopIter oracle verify (iteration + 1) r currentCode (calls + 1) subs
        | some c =>
          if (verify c).fst then
            ⟨.success, calls + 1, ((iteration, c) :: subs).reverse, some c⟩
          else
            agentLoopIter oracle verify (iteration + 1) r (some c) (calls + 1)
              ((iteration, c) :: subs)

/-- `agent_loop` (agent_loop.py 639-807).  The setup phase is abstracted by
four booleans for the fallible steps taken, in source order, before the first
iteration (system-prompt read, user-prompt read, vLLM health probe, reflexc
detection); each failing step returns immediately with a fatal result and no
oracle call.  The loop then starts at iteration 1 with no candidate. -/
def agent_loop (systemPromptOk userPromptOk vllmHealthy reflexcFound : Bool)
    (oracle : Nat → Option (List Char)) (verify : List Char → Bool × List Char)
    (max_iterations : Nat) : RunResult :=
  if !systemPromptOk then ⟨.fatalError, 0, [], none⟩
  else if !userPromptOk then ⟨.fatalError, 0, [], none⟩
  else if !vllmHealthy then ⟨.fatalError, 0, [], none⟩
  else if !reflexcFound then ⟨.fatalError, 0, [], none⟩
  else agentLoopIter oracle verify 1 max_iterations none 0 []

-- ===========================================================================
-- Concrete fixtures used by witnesses and counterexamples
-- ===========================================================================

/-- A reply whose tagged fence yields a candidate. -/
def replyTagged : List Char :=
  fenceTagReflex ++ ("\nreflex main \x7B x = 1 \x7D\n").data ++ fence3

/-- The candidate extracted from `replyTagged`. -/
def codeTagged : List Char := ("reflex main \x7B x = 1 \x7D").data

/-- A reply from which no candidate can be extracted. -/
def replyNoCode : List Char := ("no code here").data

/-- Oracle giving a good reply first and then replies without code. -/
def oracleGoodThenNoCode (i : Nat) : Option (List Char) :=
  if i == 0 then some replyTagged else some replyNoCode

/-- Oracle giving a good reply first and then no reply at all. -/
def oracleGoodThenEmpty (i : Nat) : Option (List Char) :=
  if i == 0 then some replyTagged else none

/-- Oracle that always gives a good reply. -/
def oracleAlwaysGood (_ : Nat) : Option (List Char) := some replyTagged

/-- Oracle that never replies. -/
def oracleAllNone (_ : Nat) : Option (List Char) := none

/-- Verifier stub that always reports a failed verification. -/
def verifyAlwaysFail (_ : List Char) : Bool × List Char :=
  (false, ("f.x:1:2: error: nope").data)

/-- Verifier stub whose invocation raises `FileNotFoundError` every time,
routed through `run_reflexc` exactly as in the source. -/
def verifyFileNotFound (_ : List Char) : Bool × List Char :=
  run_reflexc (("out.rfx").data) (("/usr/bin/reflexc").data) ProcResult.fileNotFound

/-- A reply containing both a tagged fence and an earlier positional
`"reflex "`-keyword span with different contents. -/
def replyBoth : List Char :=
  ("reflex intro \x7B y \x7D\n").data ++ fenceTagReflex ++
    ("\nreflex real \x7B body \x7D\n").data ++ fence3

/-- A reply whose only fence is generic and contains no `"reflex "` keyword,
with a keyword span outside it. -/
def replyGenericNoKw : List Char :=
  fence3 ++ ("\nplain text\n").data ++ fence3 ++ (" reflex z \x7B q \x7D").data

/-- A reply whose only fence is generic and whose body contains the
`"reflex "` keyword. -/
def replyGenericKw : List Char :=
  fence3 ++ ("\nreflex g \x7B h \x7D\n").data ++ fence3

/-- Sample record for the C9 witness. -/
def mkDiag (n : Nat) : Diag :=
  ⟨("f").data, n, 1, ("error").data, ("m").data, none⟩

/-- Second sample record with a clashing line number. -/
def mkDiagB (n : Nat) : Diag :=
  ⟨("g").data, n, 2, ("error").data, ("other m").data, none⟩

/-- Sample error list: 13 records over 12 distinct line numbers. -/
def sampleErrors : List Diag :=
  [mkDiag 1, mkDiagB 1, mkDiag 2, mkDiag 3, mkDiag 4, mkDiag 5, mkDiag 6,
   mkDiag 7, mkDiag 8, mkDiag 9, mkDiag 10, mkDiag 11, mkDiag 12]

/-- Raw output sample with an informational line, a blank line, one line per
error bucket, and an unclassifiable line. -/
def rawReportSample : List Char :=
  ("Platform: x86\n\nerror: bad\nundefined thing\nld: boom\nwarning: w\njunk").data

/-- The informational line of `rawReportSample`. -/
def infoLineSample : List Char := ("Platform: x86").data

/-- The `"undefined reference"` linker pattern. -/
def urPattern : List Char := ("undefined reference").data

/-- The linker patterns other than `"undefined reference"`. -/
def reachableLinkerPatterns : List (List Char) :=
  [ ("ld:").data, ("cannot find -l").data, ("unresolved symbol").data,
    ("linker error").data, ("link error").data ]

-- ===========================================================================
-- Sanity checks of the embedding
-- ===========================================================================

-- Sanity checks of the extraction embedding on concrete inputs.
example :
    extract_code_from_response (("before ").data ++ fenceTagReflex ++
      ("\nreflex a \x7B x \x7D\n").data ++ fence3) =
    some (("reflex a \x7B x \x7D").data) := by decide

example :
    extract_code_from_response (("reflex intro \x7B y \x7D tail").data) =
    some (("reflex intro \x7B y \x7D").data) := by decide

example : extract_code_from_response (("no code here").data) = none := by decide

-- Sanity checks of the parser embedding on concrete inputs.
example :
    parse_errors (("file.x:3:5: error: missing semicolon").data) =
    [⟨("file.x").data, 3, 5, ("error").data, ("missing semicolon").data, none⟩] := by
  decide

example :
    parse_errors (("file.x:3:5: error: missing semicolon\nSuggestion: add ;").data) =
    [⟨("file.x").data, 3, 5, ("error").data, ("missing semicolon").data,
      some (("add ;").data)⟩] := by
  decide

example :
    parse_errors (("f.x:1:2: syntax error: bad token\nmore context").data) =
    [⟨("f.x").data, 1, 2, ("syntax error").data,
      ("bad token more context").data, none⟩] := by
  decide

example :
    parse_errors (("f.x:1:2: error: msg\n  indented continuation").data) =
    [⟨("f.x").data, 1, 2, ("error").data, ("msg").data, none⟩] := by
  decide

-- ===========================================================================
-- Helper lemmas
-- ===========================================================================

theorem outcome_cases (o : Outcome) :
    o = Outcome.success ∨ o = Outcome.exhaustedIterations ∨ o = Outcome.fatalError := by
  cases o <;> simp

theorem agentLoopIter_calls_le (oracle : Nat → Option (List Char))
    (verify : List Char → Bool × List Char) :
    ∀ (r iteration : Nat) (cur : Option (List Char)) (calls : Nat)
      (subs : List (Nat × List Char)),
      (agentLoopIter oracle verify iteration r cur calls subs).oracleCalls ≤ calls + r := by
  intro r
  induction r with
  | zero =>
    intro iteration cur calls subs
    simp [agentLoopIter]
  | succ r ih =>
    intro iteration cur calls subs
    rw [agentLoopIter]
    split
    · exact le_trans (ih (iteration + 1) cur (calls + 1) subs) (by omega)
    · split
      · exact le_trans (ih (iteration + 1) cur (calls + 1) subs) (by omega)
      · dsimp only
        split
        · exact le_trans (ih (iteration + 1) cur (calls + 1) subs) (by omega)
        · split
          · simp
          · exact le_trans (ih _ _ (calls + 1) _) (by omega)

-- ===========================================================================
-- Claim C1
-- ===========================================================================

/-- Claim C1: for every `maxIterations = N >= 1`, `agent_loop` performs at
most `N` oracle calls (invocations of `call_vllm`) and terminates in one of
the terminal outcomes Success, ExhaustedIterations or FatalError — the model
is a total function, so termination within finitely many steps is inherent —
and this holds for every oracle reply sequence and verifier behavior,
including iterations with empty replies or failed candidate extraction. -/
theorem agent_loop_call_bound_and_terminal
    (systemPromptOk userPromptOk vllmHealthy reflexcFound : Bool)
    (oracle : Nat → Option (List Char)) (verify : List Char → Bool × List Char)
    (N : Nat) (hN : 1 ≤ N) :
    (agent_loop systemPromptOk userPromptOk vllmHealthy reflexcFound oracle verify N).oracleCalls ≤ N ∧
    ((agent_loop systemPromptOk userPromptOk vllmHealthy reflexcFound oracle verify N).outcome = Outcome.success ∨
     (agent_loop systemPromptOk userPromptOk vllmHealthy reflexcFound oracle verify N).outcome = Outcome.exhaustedIterations ∨
     (agent_loop systemPromptOk userPromptOk vllmHealthy reflexcFound oracle verify N).outcome = Outcome.fatalError) := by
  refine ⟨?_, outcome_cases _⟩
  unfold agent_loop
  split
  · simp
  · split
    · simp
    · split
      · simp
      · split
        · simp
        · simpa using agentLoopIter_calls_le oracle verify N 1 none 0 []

/-- Witness for C1 at `N = 3` with an oracle that never replies. -/
theorem agent_loop_call_bound_and_terminal_witness :
    (agent_loop true true true true oracleAllNone verifyAlwaysFail 3).oracleCalls ≤ 3 ∧
    ((agent_loop true true true true oracleAllNone verifyAlwaysFail 3).outcome = Outcome.success ∨
     (agent_loop true true true true oracleAllNone verifyAlwaysFail 3).outcome = Outcome.exhaustedIterations ∨
     (agent_loop true true true true oracleAllNone verifyAlwaysFail 3).outcome = Outcome.fatalError) :=
  agent_loop_call_bound_and_terminal true true true true oracleAllNone verifyAlwaysFail 3 (by decide)

-- ===========================================================================
-- Claim C2
-- ===========================================================================

/-- Counterexample to claim C2: with `maxIterations = 2`, a first reply whose
candidate fails verification and a second reply with no extractable
candidate, the loop retains the previous candidate but does NOT skip the
verifier on iteration 2 — the previous candidate is re-submitted there, so
the submission list is `[(1, codeTagged), (2, codeTagged)]` even though
extraction on the second reply fails. -/
theorem c2_counterexample :
    (agent_loop true true true true oracleGoodThenNoCode verifyAlwaysFail 2).verifierSubmissions =
      [(1, codeTagged), (2, codeTagged)] ∧
    extract_code_from_response replyNoCode = none := by decide

/-- Amended claim C2: if candidate extraction is falsy (no candidate found)
on an iteration where a previous candidate exists, the previous candidate is
retained as the current one and IS submitted to the verifier on that same
iteration; the oracle is re-prompted only afterwards, when that verification
fails. -/
theorem agent_loop_extraction_failure_reverifies
    (oracle : Nat → Option (List Char)) (verify : List Char → Bool × List Char)
    (iteration r calls : Nat) (c : List Char) (subs : List (Nat × List Char))
    (resp : List Char) (hresp : oracle calls = some resp)
    (hne : resp.isEmpty = false)
    (hext : falsyOpt (extract_code_from_response resp) = true) :
    agentLoopIter oracle verify iteration (r + 1) (some c) calls subs =
      (if (verify c).fst then
        ⟨Outcome.success, calls + 1, ((iteration, c) :: subs).reverse, some c⟩
       else
        agentLoopIter oracle verify (iteration + 1) r (some c) (calls + 1)
          ((iteration, c) :: subs)) := by
  rw [agentLoopIter, hresp]
  simp [hne, hext]

/-- Witness for the amended C2 at iteration 2 of the `oracleGoodThenNoCode`
run. -/
theorem agent_loop_extraction_failure_reverifies_witness :
    agentLoopIter oracleGoodThenNoCode verifyAlwaysFail 2 1 (some codeTagged) 1
        [(1, codeTagged)] =
      (if (verifyAlwaysFail codeTagged).fst then
        ⟨Outcome.success, 2, ((2, codeTagged) :: [(1, codeTagged)]).reverse, some codeTagged⟩
       else
        agentLoopIter oracleGoodThenNoCode verifyAlwaysFail 3 0 (some codeTagged) 2
          ((2, codeTagged) :: [(1, codeTagged)])) :=
  agent_loop_extraction_failure_reverifies oracleGoodThenNoCode verifyAlwaysFail 2 0 1
    codeTagged [(1, codeTagged)] replyNoCode (by decide) (by decide) (by decide)

-- ===========================================================================
-- Claim C5
-- ===========================================================================

/-- Counterexample to claim C5: with `maxIterations = 2`, a good first reply
whose candidate fails verification and an empty second reply, the prior
candidate exists on iteration 2 but is NOT verified there — the only
verifier submission is from iteration 1, and both iterations are consumed by
oracle calls. -/
theorem c5_counterexample :
    (agent_loop true true true true oracleGoodThenEmpty verifyAlwaysFail 2).verifierSubmissions =
      [(1, codeTagged)] ∧
    oracleGoodThenEmpty 1 = none ∧
    (agent_loop true true true true oracleGoodThenEmpty verifyAlwaysFail 2).oracleCalls = 2 ∧
    (agent_loop true true true true oracleGoodThenEmpty verifyAlwaysFail 2).finalCode =
      some codeTagged := by decide

/-- Amended claim C5: when the oracle returns an empty or no reply, the
controller keeps the current candidate unchanged but performs NO verification
on that iteration; it advances to the next iteration (consuming the oracle
call) and re-prompts the oracle instead. -/
theorem agent_loop_empty_reply_skips_iteration
    (oracle : Nat → Option (List Char)) (verify : List Char → Bool × List Char)
    (iteration r calls : Nat) (cur : Option (List Char))
    (subs : List (Nat × List Char))
    (h : oracle calls = none ∨ oracle calls = some []) :
    agentLoopIter oracle verify iteration (r + 1) cur calls subs =
      agentLoopIter oracle verify (iteration + 1) r cur (calls + 1) subs := by
  rcases h with h | h <;> rw [agentLoopIter, h] <;> simp

/-- Witness for the amended C5 at iteration 2 of the `oracleGoodThenEmpty`
run. -/
theorem agent_loop_empty_reply_skips_iteration_witness :
    agentLoopIter oracleGoodThenEmpty verifyAlwaysFail 2 1 (some codeTagged) 1
        [(1, codeTagged)] =
      agentLoopIter oracleGoodThenEmpty verifyAlwaysFail 3 0 (some codeTagged) 2
        [(1, codeTagged)] :=
  agent_loop_empty_reply_skips_iteration oracleGoodThenEmpty verifyAlwaysFail 2 0 1
    (some codeTagged) [(1, codeTagged)] (Or.inl (by decide))

-- ===========================================================================
-- Claim C3
-- ===========================================================================

/-- Counterexample to claim C3: when the verifier invocation raises
`FileNotFoundError` mid-loop (binary vanished after the setup check),
`run_reflexc` converts it into an ordinary failed verification, so with
`maxIterations = 2` the loop does NOT terminate immediately with a fatal
outcome: it consumes a second oracle call and ends in ExhaustedIterations. -/
theorem c3_counterexample :
    (agent_loop true true true true oracleAlwaysGood verifyFileNotFound 2).outcome =
      Outcome.exhaustedIterations ∧
    (agent_loop true true true true oracleAlwaysGood verifyFileNotFound 2).oracleCalls = 2 ∧
    verifyFileNotFound codeTagged =
      (false, ("Error: reflexc not found at /usr/bin/reflexc").data) := by decide

/-- Amended claim C3: a verifier binary that cannot be found at session start
terminates the session with FatalError and zero oracle calls; but a
`FileNotFoundError` raised while invoking the verifier mid-loop is captured
by `run_reflexc` as `(False, "Error: reflexc not found at <path>")` and is
treated as an ordinary retryable verification failure — the loop simply
advances to the next iteration with the candidate retained. -/
theorem agent_loop_verifier_missing_behavior
    (oracle : Nat → Option (List Char)) (verify : List Char → Bool × List Char)
    (N : Nat) (rfx rp : List Char) :
    agent_loop true true true false oracle verify N =
      ⟨Outcome.fatalError, 0, [], none⟩ ∧
    run_reflexc rfx rp ProcResult.fileNotFound =
      (false, ("Error: reflexc not found at ").data ++ rp) ∧
    (∀ (iteration r calls : Nat) (cur : Option (List Char))
        (subs : List (Nat × List Char)) (resp c : List Char),
      oracle calls = some resp → resp.isEmpty = false →
      extract_code_from_response resp = some c → c.isEmpty = false →
      (verify c).fst = false →
      agentLoopIter oracle verify iteration (r + 1) cur calls subs =
        agentLoopIter oracle verify (iteration + 1) r (some c) (calls + 1)
          ((iteration, c) :: subs)) := by
  refine ⟨by rfl, by rfl, ?_⟩
  intro iteration r calls cur subs resp c hresp hne hext hce hv
  rw [agentLoopIter, hresp]
  simp [hne, hext, falsyOpt, hce, hv]

/-- Witness for the amended C3 with the `FileNotFoundError` verifier stub. -/
theorem agent_loop_verifier_missing_behavior_witness :
    agent_loop true true true false oracleAlwaysGood verifyFileNotFound 2 =
      ⟨Outcome.fatalError, 0, [], none⟩ ∧
    run_reflexc (("out.rfx").data) (("/usr/bin/reflexc").data) ProcResult.fileNotFound =
      (false, ("Error: reflexc not found at ").data ++ ("/usr/bin/reflexc").data) ∧
    agentLoopIter oracleAlwaysGood verifyFileNotFound 1 2 none 0 [] =
      agentLoopIter oracleAlwaysGood verifyFileNotFound 2 1 (some codeTagged) 1
        [(1, codeTagged)] :=
  ⟨(agent_loop_verifier_missing_behavior oracleAlwaysGood verifyFileNotFound 2
      (("out.rfx").data) (("/usr/bin/reflexc").data)).1,
   (agent_loop_verifier_missing_behavior oracleAlwaysGood verifyFileNotFound 2
      (("out.rfx").data) (("/usr/bin/reflexc").data)).2.1,
   (agent_loop_verifier_missing_behavior oracleAlwaysGood verifyFileNotFound 2
      (("out.rfx").data) (("/usr/bin/reflexc").data)).2.2 1 1 0 none [] replyTagged
      codeTagged (by decide) (by decide) (by decide) (by decide) (by decide)⟩

-- ===========================================================================
-- Claim C6
-- ===========================================================================

/-- Claim C6: the three extraction strategies are tried in strict priority
order, first success winning.  (1) When the tagged-fence search succeeds —
in particular on a reply that also carries a positional keyword span with
different content — the stripped tagged body is returned.  (2) A generic
fence whose stripped body lacks the `"reflex "` keyword is not accepted:
extraction falls through to the keyword scan.  (3) A generic fence whose
stripped body contains the keyword is returned.  (4) When all three
strategies fail, extraction signals no candidate. -/
theorem extract_priority (response inner d : List Char) :
    (taggedFenceSearch response = some inner →
      extract_keyword_span response = some d → strip inner ≠ d →
      extract_code_from_response response = some (strip inner)) ∧
    (taggedFenceSearch response = none → genericFenceSearch response = some inner →
      containsSub kwReflex (strip inner) = false →
      extract_code_from_response response = extract_keyword_span response) ∧
    (taggedFenceSearch response = none → genericFenceSearch response = some inner →
      containsSub kwReflex (strip inner) = true →
      extract_code_from_response response = some (strip inner)) ∧
    (taggedFenceSearch response = none → genericFenceSearch response = none →
      extract_keyword_span response = none →
      extract_code_from_response response = none) := by
  cases response with
  | nil =>
    refine ⟨?_, ?_, ?_, ?_⟩
    · intro h1 _ _
      simp [taggedFenceSearch, fenceSearchFrom] at h1
    · intro _ h2 _
      simp [genericFenceSearch, fenceSearchFrom] at h2
    · intro _ h2 _
      simp [genericFenceSearch, fenceSearchFrom] at h2
    · intro _ _ _
      decide
  | cons a rest =>
    refine ⟨?_, ?_, ?_, ?_⟩
    · intro h1 _ _
      simp [extract_code_from_response, h1]
    · intro h1 h2 h3
      simp [extract_code_from_response, h1, h2, h3]
    · intro h1 h2 h3
      simp [extract_code_from_response, h1, h2, h3]
    · intro h1 h2 h3
      simp [extract_code_from_response, h1, h2, h3]

/-- Witness for C6: the four parts at four concrete replies. -/
theorem extract_priority_witness :
    extract_code_from_response replyBoth =
      some (strip (("reflex real \x7B body \x7D\n").data)) ∧
    extract_code_from_response replyGenericNoKw = extract_keyword_span replyGenericNoKw ∧
    extract_code_from_response replyGenericKw =
      some (strip (("reflex g \x7B h \x7D\n").data)) ∧
    extract_code_from_response replyNoCode = none :=
  ⟨(extract_priority replyBoth (("reflex real \x7B body \x7D\n").data)
      (("reflex intro \x7B y \x7D").data)).1 (by decide) (by decide) (by decide),
   (extract_priority replyGenericNoKw (("plain text\n").data) []).2.1
      (by decide) (by decide) (by decide),
   (extract_priority replyGenericKw (("reflex g \x7B h \x7D\n").data) []).2.2.1
      (by decide) (by decide) (by decide),
   (extract_priority replyNoCode [] []).2.2.2 (by decide) (by decide) (by decide)⟩

-- ===========================================================================
-- Claim C7
-- ===========================================================================

/-- Claim C7: on the raw output `"file.x:3:5: error: missing semicolon"` the
parser yields exactly one record with line 3, column 5, type `"error"` (a
line the classifier places in the syntax bucket) and message
`"missing semicolon"`; a following `"Suggestion: add ;"` line attaches the
suggestion `"add ;"` to that same record. -/
theorem parse_errors_scenario :
    parse_errors (("file.x:3:5: error: missing semicolon").data) =
      [⟨("file.x").data, 3, 5, ("error").data, ("missing semicolon").data, none⟩] ∧
    parse_errors (("file.x:3:5: error: missing semicolon\nSuggestion: add ;").data) =
      [⟨("file.x").data, 3, 5, ("error").data, ("missing semicolon").data,
        some (("add ;").data)⟩] ∧
    classifyLine (("file.x:3:5: error: missing semicolon").data) = ErrCat.syn := by
  decide

-- ===========================================================================
-- Claim C8
-- ===========================================================================

/-- Counterexample to claim C8: an indented continuation line following a
recognized diagnostic is NOT appended to the preceding record's message —
the parser skips lines that start with a space (other than suggestion
lines), so the message stays `"msg"` instead of the claimed
`"msg indented continuation"`. -/
theorem c8_counterexample :
    parse_errors (("f.x:1:2: error: msg\n  indented continuation").data) =
      [⟨("f.x").data, 1, 2, ("error").data, ("msg").data, none⟩] ∧
    parse_errors (("f.x:1:2: error: msg\n  indented continuation").data) ≠
      [⟨("f.x").data, 1, 2, ("error").data,
        ("msg indented continuation").data, none⟩] := by decide

/-- Amended claim C8: for a non-blank line that matches no diagnostic start
and is not a suggestion line, the parser appends it (space-joined, stripped)
to the preceding record's message only when it does NOT start with a space;
a line starting with a space is ignored. -/
theorem parse_errors_continuation_behavior
    (l : List Char) (d : Diag) (ls : List (List Char))
    (hm : errorLineMatch l = none) (hnb : (strip l).isEmpty = false)
    (hsug : sugKw.isPrefixOf (strip l) = false) :
    (l.head? = some ' ' → parseLines (l :: ls) (some d) = parseLines ls (some d)) ∧
    (l.head? ≠ some ' ' →
      parseLines (l :: ls) (some d) =
        parseLines ls (some { d with message := d.message ++ ' ' :: strip l })) := by
  constructor
  · intro hh
    rw [parseLines, hm]
    simp [hsug, hnb, hh]
  · intro hh
    rw [parseLines, hm]
    simp [hsug, hnb, hh]

/-- Witness for the amended C8 on both kinds of continuation lines. -/
theorem parse_errors_continuation_behavior_witness :
    (parseLines [(" indented cont").data]
        (some ⟨("f").data, 1, 2, ("error").data, ("msg").data, none⟩) =
      parseLines [] (some ⟨("f").data, 1, 2, ("error").data, ("msg").data, none⟩)) ∧
    (parseLines [("flush cont").data]
        (some ⟨("f").data, 1, 2, ("error").data, ("msg").data, none⟩) =
      parseLines []
        (some ⟨("f").data, 1, 2, ("error").data,
          ("msg").data ++ ' ' :: strip (("flush cont").data), none⟩)) :=
  ⟨(parse_errors_continuation_behavior ((" indented cont").data)
      ⟨("f").data, 1, 2, ("error").data, ("msg").data, none⟩ []
      (by decide) (by decide) (by decide)).1 (by decide),
   (parse_errors_continuation_behavior (("flush cont").data)
      ⟨("f").data, 1, 2, ("error").data, ("msg").data, none⟩ []
      (by decide) (by decide) (by decide)).2 (by decide)⟩

-- ===========================================================================
-- Claim C9
-- ===========================================================================

theorem dedupGo_sublist : ∀ (l : List Diag) (seen : List Nat),
    (dedupGo seen l).Sublist l := by
  intro l
  induction l with
  | nil =>
    intro seen
    simp [dedupGo]
  | cons e rest ih =>
    intro seen
    rw [dedupGo]
    split
    · exact (ih seen).trans (List.sublist_cons_self e rest)
    · exact (ih (e.line :: seen)).cons₂ e

theorem dedupGo_mem_spec : ∀ (l : List Diag) (seen : List Nat) (d : Diag),
    d ∈ dedupGo seen l →
    seen.contains d.line = false ∧ l.find? (fun e => e.line == d.line) = some d := by
  intro l
  induction l with
  | nil =>
    intro seen d h
    simp [dedupGo] at h
  | cons e rest ih =>
    intro seen d h
    rw [dedupGo] at h
    by_cases hc : seen.contains e.line
    · rw [if_pos hc] at h
      obtain ⟨h1, h2⟩ := ih seen d h
      refine ⟨h1, ?_⟩
      rw [List.find?_cons_of_neg, h2]
      intro hpe
      rw [show e.line = d.line from by simpa using hpe] at hc
      rw [hc] at h1
      exact absurd h1 (by simp)
    · rw [if_neg hc] at h
      rcases List.mem_cons.mp h with rfl | h'
      · refine ⟨by simpa using hc, ?_⟩
        rw [List.find?_cons_of_pos]
        simp
      · obtain ⟨h1, h2⟩ := ih (e.line :: seen) d h'
        rw [List.contains_cons] at h1
        simp only [Bool.or_eq_false_iff] at h1
        refine ⟨h1.2, ?_⟩
        rw [List.find?_cons_of_neg, h2]
        intro hpe
        have : e.line = d.line := by simpa using hpe
        have : (d.line == e.line) = true := by simp [this]
        rw [this] at h1
        exact absurd h1.1 (by simp)

theorem dedupGo_lines_nodup : ∀ (l : List Diag) (seen : List Nat),
    ((dedupGo seen l).map Diag.line).Nodup := by
  intro l
  induction l with
  | nil =>
    intro seen
    simp [dedupGo]
  | cons e rest ih =>
    intro seen
    rw [dedupGo]
    split
    · exact ih seen
    · simp only [List.map_cons, List.nodup_cons]
      refine ⟨?_, ih (e.line :: seen)⟩
      intro hmem
      obtain ⟨d', hd', hline⟩ := List.mem_map.mp hmem
      have h1 := (dedupGo_mem_spec rest (e.line :: seen) d' hd').1
      rw [List.contains_cons] at h1
      simp only [Bool.or_eq_false_iff] at h1
      have : (d'.line == e.line) = true := by simp [hline]
      rw [this] at h1
      exact absurd h1.1 (by simp)

/-- Claim C9: the single-shot feedback deduplication of
`format_error_feedback` keeps at most one record per distinct line number
with the first occurrence in input order winning (each kept record is what
`find?` locates for its line number, and the kept records form a sublist of
the input), the kept list is capped at 10 entries with no duplicate line
numbers, and the remainder note is present exactly when more than 10
unique-line records exist. -/
theorem format_error_feedback_dedup_cap (errors : List Diag) :
    ((format_error_feedback_limited_errors errors).map Diag.line).Nodup ∧
    (format_error_feedback_limited_errors errors).length ≤ 10 ∧
    ((format_error_feedback_remainder errors).isSome ↔
      10 < (format_error_feedback_unique_errors errors).length) ∧
    (format_error_feedback_unique_errors errors).Sublist errors ∧
    ∀ d ∈ format_error_feedback_unique_errors errors,
      errors.find? (fun e => e.line == d.line) = some d := by
  refine ⟨?_, ?_, ?_, dedupGo_sublist errors [], ?_⟩
  · have hsub : List.Sublist
        ((format_error_feedback_limited_errors errors).map Diag.line)
        ((format_error_feedback_unique_errors errors).map Diag.line) := by
      unfold format_error_feedback_limited_errors
      exact (List.take_sublist 10 _).map Diag.line
    exact (dedupGo_lines_nodup errors []).sublist hsub
  · unfold format_error_feedback_limited_errors
    exact List.length_take_le 10 _
  · unfold format_error_feedback_remainder
    split
    · simpa
    · rename_i h
      refine ⟨fun hh => absurd hh (by simp), fun hh => absurd hh h⟩
  · intro d hd
    exact (dedupGo_mem_spec errors [] d hd).2

/-- Witness for C9 on a 13-record list with a duplicated line number. -/
theorem format_error_feedback_dedup_cap_witness :
    ((format_error_feedback_limited_errors sampleErrors).map Diag.line).Nodup ∧
    (format_error_feedback_limited_errors sampleErrors).length ≤ 10 ∧
    ((format_error_feedback_remainder sampleErrors).isSome ↔
      10 < (format_error_feedback_unique_errors sampleErrors).length) ∧
    (format_error_feedback_unique_errors sampleErrors).Sublist sampleErrors ∧
    sampleErrors.find? (fun e => e.line == (mkDiag 1).line) = some (mkDiag 1) :=
  ⟨(format_error_feedback_dedup_cap sampleErrors).1,
   (format_error_feedback_dedup_cap sampleErrors).2.1,
   (format_error_feedback_dedup_cap sampleErrors).2.2.1,
   (format_error_feedback_dedup_cap sampleErrors).2.2.2.1,
   (format_error_feedback_dedup_cap sampleErrors).2.2.2.2 (mkDiag 1) (by decide)⟩

-- ===========================================================================
-- Claim C4
-- ===========================================================================

theorem paceGo_eq_filters : ∀ ls : List (List Char),
    paceGo ls =
      ((ls.filter fun x => !(strip x).isEmpty).filter
         (fun x => classifyLine x == ErrCat.syn),
       (ls.filter fun x => !(strip x).isEmpty).filter
         (fun x => classifyLine x == ErrCat.typ),
       (ls.filter fun x => !(strip x).isEmpty).filter
         (fun x => classifyLine x == ErrCat.link),
       (ls.filter fun x => !(strip x).isEmpty).filter
         (fun x => classifyLine x == ErrCat.warn),
       (ls.filter fun x => !(strip x).isEmpty).filter
         (fun x => classifyLine x == ErrCat.other)) := by
  intro ls
  induction ls with
  | nil => rfl
  | cons l ls ih =>
    rw [paceGo, ih]
    by_cases hb : (strip l).isEmpty
    · rw [if_pos hb]
      simp [List.filter_cons, hb]
    · rw [if_neg hb]
      have hb' : (strip l).isEmpty = false := by
        cases h : (strip l).isEmpty
        · rfl
        · exact absurd h hb
      simp only [List.filter_cons, hb', Bool.not_false, if_true]
      by_cases h1 : anyContains (toLowerL l) informationalPatterns
      · have hcl : classifyLine l = ErrCat.other := by
          rw [classifyLine, if_pos h1]
        rw [if_pos h1, hcl]
        simp
      · by_cases h2 : anyContains (toLowerL l) syntaxPatterns
        · have hcl : classifyLine l = ErrCat.syn := by
            rw [classifyLine, if_neg h1, if_pos h2]
          rw [if_neg h1, if_pos h2, hcl]
          simp
        · by_cases h3 : anyContains (toLowerL l) typePatterns
          · have hcl : classifyLine l = ErrCat.typ := by
              rw [classifyLine, if_neg h1, if_neg h2, if_pos h3]
            rw [if_neg h1, if_neg h2, if_pos h3, hcl]
            simp
          · by_cases h4 : anyContains (toLowerL l) linkerPatterns
            · have hcl : classifyLine l = ErrCat.link := by
                rw [classifyLine, if_neg h1, if_neg h2, if_neg h3, if_pos h4]
              rw [if_neg h1, if_neg h2, if_neg h3, if_pos h4, hcl]
              simp
            · by_cases h5 : anyContains (toLowerL l) warningPatterns
              · have hcl : classifyLine l = ErrCat.warn := by
                  rw [classifyLine, if_neg h1, if_neg h2, if_neg h3, if_neg h4,
                    if_pos h5]
                rw [if_neg h1, if_neg h2, if_neg h3, if_neg h4, if_pos h5, hcl]
                simp
              · by_cases h6 : anyContains (toLowerL l) otherFailurePatterns &&
                    !containsSub cannotOpenFile (toLowerL l)
                · have hcl : classifyLine l = ErrCat.other := by
                    rw [classifyLine, if_neg h1, if_neg h2, if_neg h3, if_neg h4,
                      if_neg h5, if_pos h6]
                  rw [if_neg h1, if_neg h2, if_neg h3, if_neg h4, if_neg h5,
                    if_pos h6, hcl]
                  simp
                · have hcl : classifyLine l = ErrCat.other := by
                    rw [classifyLine, if_neg h1, if_neg h2, if_neg h3, if_neg h4,
                      if_neg h5, if_neg h6]
                  rw [if_neg h1, if_neg h2, if_neg h3, if_neg h4, if_neg h5,
                    if_neg h6, hcl]
                  simp

/-- Claim C4: `parse_and_categorize_errors` is total, exclusive and
order-preserving — the five buckets are exactly the order-preserving filters
of the non-blank input lines by the (single-valued) category chain, so each
non-blank line lands in exactly one bucket — and any line carrying an
informational pattern is classified `other` and therefore never appears in
any category-grouped section of the Rich-mode error report. -/
theorem classifier_total_ordered_informational_excluded (raw l : List Char) :
    parse_and_categorize_errors raw =
      ((nonBlankLines raw).filter (fun x => classifyLine x == ErrCat.syn),
       (nonBlankLines raw).filter (fun x => classifyLine x == ErrCat.typ),
       (nonBlankLines raw).filter (fun x => classifyLine x == ErrCat.link),
       (nonBlankLines raw).filter (fun x => classifyLine x == ErrCat.warn),
       (nonBlankLines raw).filter (fun x => classifyLine x == ErrCat.other)) ∧
    (isInformational l = true → ∀ sec ∈ richReportSections raw, l ∉ sec) := by
  have hmain : parse_and_categorize_errors raw =
      ((nonBlankLines raw).filter (fun x => classifyLine x == ErrCat.syn),
       (nonBlankLines raw).filter (fun x => classifyLine x == ErrCat.typ),
       (nonBlankLines raw).filter (fun x => classifyLine x == ErrCat.link),
       (nonBlankLines raw).filter (fun x => classifyLine x == ErrCat.warn),
       (nonBlankLines raw).filter (fun x => classifyLine x == ErrCat.other)) := by
    unfold parse_and_categorize_errors nonBlankLines
    exact paceGo_eq_filters (splitNl raw)
  refine ⟨hmain, ?_⟩
  intro hinf sec hsec hmem
  have hcl : classifyLine l = ErrCat.other := by
    unfold isInformational at hinf
    rw [classifyLine, if_pos hinf]
  unfold richReportSections at hsec
  rw [hmain] at hsec
  simp only [List.mem_cons, List.not_mem_nil, or_false] at hsec
  have hbad : ∀ c : ErrCat, c ≠ ErrCat.other →
      l ∉ ((nonBlankLines raw).filter (fun x => classifyLine x == c)).take 10 := by
    intro c hc hmem'
    have hmem2 := List.take_subset 10 _ hmem'
    have hcls := (List.mem_filter.mp hmem2).2
    rw [hcl] at hcls
    exact hc (eq_of_beq hcls).symm
  rcases hsec with h | h | h | h <;> subst h
  · exact hbad ErrCat.syn (by simp) hmem
  · exact hbad ErrCat.typ (by simp) hmem
  · exact hbad ErrCat.link (by simp) hmem
  · exact hbad ErrCat.warn (by simp) hmem

/-- Witness for C4 on `rawReportSample`: the bucket equation holds and the
informational line is absent from the first category-grouped report section. -/
theorem classifier_total_ordered_informational_excluded_witness :
    parse_and_categorize_errors rawReportSample =
      ((nonBlankLines rawReportSample).filter (fun x => classifyLine x == ErrCat.syn),
       (nonBlankLines rawReportSample).filter (fun x => classifyLine x == ErrCat.typ),
       (nonBlankLines rawReportSample).filter (fun x => classifyLine x == ErrCat.link),
       (nonBlankLines rawReportSample).filter (fun x => classifyLine x == ErrCat.warn),
       (nonBlankLines rawReportSample).filter (fun x => classifyLine x == ErrCat.other)) ∧
    infoLineSample ∉ (parse_and_categorize_errors rawReportSample).1.take 10 :=
  ⟨(classifier_total_ordered_informational_excluded rawReportSample infoLineSample).1,
   (classifier_total_ordered_informational_excluded rawReportSample infoLineSample).2
     (by decide) ((parse_and_categorize_errors rawReportSample).1.take 10) (by decide)⟩

-- ===========================================================================
-- Claim C10
-- ===========================================================================

theorem containsSub_of_prefix (b a h : List Char) (hp : b <+: a)
    (hc : containsSub a h = true) : containsSub b h = true := by
  simp only [containsSub, decide_eq_true_eq] at hc ⊢
  exact hp.isInfix.trans hc

theorem bool_eq_false_of_not {b : Bool} (h : ¬b = true) : b = false := by
  cases b
  · rfl
  · exact absurd rfl h

/-- Counterexample to claim C10: the line `"unresolved symbol foo"` is placed
in the linker bucket by `parse_and_categorize_errors`, yet it matches none of
the four patterns the claim says are the only routes into that bucket —
`"unresolved symbol"` is a fifth reachable linker pattern the claim omits. -/
theorem c10_counterexample :
    (parse_and_categorize_errors (("unresolved symbol foo").data)).2.2.1 =
      [("unresolved symbol foo").data] ∧
    containsSub (("ld:").data) (toLowerL (("unresolved symbol foo").data)) = false ∧
    containsSub (("cannot find -l").data)
      (toLowerL (("unresolved symbol foo").data)) = false ∧
    containsSub (("linker error").data)
      (toLowerL (("unresolved symbol foo").data)) = false ∧
    containsSub (("link error").data)
      (toLowerL (("unresolved symbol foo").data)) = false := by decide

/-- Amended claim C10: no line containing `"undefined reference"`
(case-insensitively) is ever placed in the linker bucket, because the earlier
TypeOrSemantic `"undefined"` pattern (or an earlier informational/syntax
pattern) always claims such a line first; consequently the linker bucket can
only receive lines matched by `"ld:"`, `"cannot find -l"`,
`"unresolved symbol"`, `"linker error"` or `"link error"` that carry no
earlier-precedence marker and no `"undefined reference"`. -/
theorem linker_bucket_characterization (l : List Char) :
    (containsSub urPattern (toLowerL l) = true → classifyLine l ≠ ErrCat.link) ∧
    (classifyLine l = ErrCat.link →
      anyContains (toLowerL l) reachableLinkerPatterns = true ∧
      anyContains (toLowerL l) informationalPatterns = false ∧
      anyContains (toLowerL l) syntaxPatterns = false ∧
      anyContains (toLowerL l) typePatterns = false ∧
      containsSub urPattern (toLowerL l) = false) := by
  constructor
  · intro hur
    have htyp : anyContains (toLowerL l) typePatterns = true := by
      simp only [anyContains, List.any_eq_true]
      exact ⟨("undefined").data, by decide,
        containsSub_of_prefix (("undefined").data) urPattern (toLowerL l)
          (by decide) hur⟩
    by_cases h1 : anyContains (toLowerL l) informationalPatterns
    · rw [classifyLine, if_pos h1]
      simp
    · by_cases h2 : anyContains (toLowerL l) syntaxPatterns
      · rw [classifyLine, if_neg h1, if_pos h2]
        simp
      · rw [classifyLine, if_neg h1, if_neg h2, if_pos htyp]
        simp
  · intro hcl
    by_cases h1 : anyContains (toLowerL l) informationalPatterns
    · rw [classifyLine, if_pos h1] at hcl
      simp at hcl
    · by_cases h2 : anyContains (toLowerL l) syntaxPatterns
      · rw [classifyLine, if_neg h1, if_pos h2] at hcl
        simp at hcl
      · by_cases h3 : anyContains (toLowerL l) typePatterns
        · rw [classifyLine, if_neg h1, if_neg h2, if_pos h3] at hcl
          simp at hcl
        · by_cases h4 : anyContains (toLowerL l) linkerPatterns
          · have hur : containsSub urPattern (toLowerL l) = false := by
              cases hu : containsSub urPattern (toLowerL l)
              · rfl
              · exfalso
                refine h3 ?_
                simp only [anyContains, List.any_eq_true]
                exact ⟨("undefined").data, by decide,
                  containsSub_of_prefix (("undefined").data) urPattern (toLowerL l)
                    (by decide) hu⟩
            have hexp : anyContains (toLowerL l) linkerPatterns =
                (containsSub urPattern (toLowerL l) ||
                 anyContains (toLowerL l) reachableLinkerPatterns) := rfl
            rw [hexp, hur, Bool.false_or] at h4
            exact ⟨h4, bool_eq_false_of_not h1, bool_eq_false_of_not h2,
              bool_eq_false_of_not h3, hur⟩
          · rw [classifyLine, if_neg h1, if_neg h2, if_neg h3, if_neg h4] at hcl
            by_cases h5 : anyContains (toLowerL l) warningPatterns
            · rw [if_pos h5] at hcl
              simp at hcl
            · rw [if_neg h5] at hcl
              by_cases h6 : anyContains (toLowerL l) otherFailurePatterns &&
                  !containsSub cannotOpenFile (toLowerL l)
              · rw [if_pos h6] at hcl
                simp at hcl
              · rw [if_neg h6] at hcl
                simp at hcl

/-- Witness for the amended C10 on two concrete lines. -/
theorem linker_bucket_characterization_witness :
    classifyLine (("undefined reference to x").data) ≠ ErrCat.link ∧
    (anyContains (toLowerL (("ld: boom").data)) reachableLinkerPatterns = true ∧
     anyContains (toLowerL (("ld: boom").data)) informationalPatterns = false ∧
     anyContains (toLowerL (("ld: boom").data)) syntaxPatterns = false ∧
     anyContains (toLowerL (("ld: boom").data)) typePatterns = false ∧
     containsSub urPattern (toLowerL (("ld: boom").data)) = false) :=
  ⟨(linker_bucket_characterization (("undefined reference to x").data)).1 (by decide),
   (linker_bucket_characterization (("ld: boom").data)).2 (by decide)⟩
